import Mathlib

/-!
Verification of the invoicegen core against its specification.

The Python source (src/core/models.py and
src/core/management/commands/regenerate_pdfs.py) is shallowly embedded:
Decimal arithmetic becomes exact rational arithmetic over ℚ with an
explicit round-half-up-to-2-decimals function, Django model instances
become Lean structures, and the stateful document/file operations become
pure state transformers that additionally report the storage events
(delete/save of blobs) they perform.  External collaborators (the
Playwright renderer, Google Drive) are abstracted as inputs: rendered
bytes are a parameter, and the Drive sync surfaces only through the
state transition mark_drive_file performs on the invoice record.
-/

namespace Invoicegen

/-- The fixed tax rate GCT_RATE = Decimal 0.15 from models.py. -/
def GCT_RATE : ℚ := 15 / 100

/-- Round half-up to two decimal places, the semantics of
Decimal.quantize(Decimal 0.01, rounding=ROUND_HALF_UP): round to the
nearest multiple of 1/100, ties away from zero. -/
def round2 (q : ℚ) : ℚ :=
  if q < 0 then -(((Int.floor (-q * 100 + 1 / 2) : ℤ) : ℚ) / 100)
  else ((Int.floor (q * 100 + 1 / 2) : ℤ) : ℚ) / 100

/-- round2 is the identity on rationals that are already an integer
number of cents. -/
theorem round2_int_div (n : ℤ) : round2 ((n : ℚ) / 100) = (n : ℚ) / 100 := by
  unfold round2
  have h100 : ((100 : ℚ)) ≠ 0 := by norm_num
  have hhalf : Int.floor ((1 : ℚ) / 2) = 0 := by
    rw [Int.floor_eq_zero_iff]
    constructor <;> norm_num
  by_cases hn : (n : ℚ) / 100 < 0
  · rw [if_pos hn]
    have : -((n : ℚ) / 100) * 100 + 1 / 2 = ((-n : ℤ) : ℚ) + 1 / 2 := by
      push_cast
      field_simp
      ring
    rw [this, Int.floor_int_add, hhalf]
    push_cast
    ring
  · rw [if_neg hn]
    have : (n : ℚ) / 100 * 100 + 1 / 2 = ((n : ℤ) : ℚ) + 1 / 2 := by
      field_simp
    rw [this, Int.floor_int_add, hhalf]
    push_cast
    ring

/-- Every value of round2 is an integer number of cents. -/
theorem round2_exists_int (q : ℚ) : ∃ n : ℤ, round2 q = (n : ℚ) / 100 := by
  unfold round2
  by_cases h : q < 0
  · rw [if_pos h]
    exact ⟨-Int.floor (-q * 100 + 1 / 2), by push_cast; ring⟩
  · rw [if_neg h]
    exact ⟨Int.floor (q * 100 + 1 / 2), rfl⟩

/-- round2 is idempotent. -/
theorem round2_round2 (q : ℚ) : round2 (round2 q) = round2 q := by
  obtain ⟨n, hn⟩ := round2_exists_int q
  rw [hn, round2_int_div]

/-- One invoice line item (InvoiceItem in models.py); costs are exact
decimals, embedded as rationals. -/
structure InvoiceItem where
  description : String
  labour_cost : ℚ
  parts_cost : ℚ
deriving DecidableEq

/-- GENERAL or PROFORMA, the Invoice.Type choices. -/
inductive InvoiceType where
  | general
  | proforma
deriving DecidableEq

/-- The value string stored for the invoice type, as Django renders it
in an f-string. -/
def invoiceTypeStr : InvoiceType → String
  | InvoiceType.general => "GENERAL"
  | InvoiceType.proforma => "PROFORMA"

/-- A stored PDF blob: its filename and content bytes. -/
structure StoredFile where
  name : String
  content : List Nat
deriving DecidableEq

/-- The Invoice record: line items, proforma fields, the optional local
PDF file, and the Google Drive descriptor fields.  Dates/timestamps are
embedded as integers (day or time ordinals). -/
structure Invoice where
  pk : Nat
  invoice_type : InvoiceType
  items : List InvoiceItem
  proforma_price : Option ℚ
  proforma_currency : String
  pdf_file : Option StoredFile
  drive_file_id : String
  drive_web_view_link : String
  drive_download_link : String
  drive_synced_at : Option Int
deriving DecidableEq

/-- Invoice.parts_subtotal: the sum of parts costs, quantized half-up
to 2 decimals (an empty aggregate yields Decimal 0). -/
def Invoice.parts_subtotal (inv : Invoice) : ℚ :=
  round2 ((inv.items.map InvoiceItem.parts_cost).sum)

/-- Invoice.labour_subtotal: the sum of labour costs, quantized half-up
to 2 decimals. -/
def Invoice.labour_subtotal (inv : Invoice) : ℚ :=
  round2 ((inv.items.map InvoiceItem.labour_cost).sum)

/-- Invoice.gct: tax on the parts subtotal only, quantized. -/
def Invoice.gct (inv : Invoice) : ℚ :=
  round2 (inv.parts_subtotal * GCT_RATE)

/-- Invoice.total: parts subtotal + labour subtotal + tax, quantized. -/
def Invoice.total (inv : Invoice) : ℚ :=
  round2 (inv.parts_subtotal + inv.labour_subtotal + inv.gct)

/-- The final quantize in Invoice.total never changes the value: each
addend is already a whole number of cents. -/
theorem total_eq_sum (inv : Invoice) :
    inv.total = inv.parts_subtotal + inv.labour_subtotal + inv.gct := by
  obtain ⟨a, ha⟩ := round2_exists_int ((inv.items.map InvoiceItem.parts_cost).sum)
  obtain ⟨b, hb⟩ := round2_exists_int ((inv.items.map InvoiceItem.labour_cost).sum)
  obtain ⟨c, hc⟩ := round2_exists_int (inv.parts_subtotal * GCT_RATE)
  have hp : inv.parts_subtotal = (a : ℚ) / 100 := ha
  have hl : inv.labour_subtotal = (b : ℚ) / 100 := hb
  have hg : inv.gct = (c : ℚ) / 100 := hc
  have hsum : inv.parts_subtotal + inv.labour_subtotal + inv.gct
      = ((a + b + c : ℤ) : ℚ) / 100 := by
    rw [hp, hl, hg]
    push_cast
    ring
  unfold Invoice.total
  rw [hsum, round2_int_div]

/-- round2 0 = 0 (used for the empty-item-list case). -/
theorem round2_zero : round2 0 = 0 := by
  have h := round2_int_div 0
  simpa using h

/-- C1: the MoneyEngine.  For every invoice (hence every list of line
items): partsSubtotal is the half-up 2-decimal rounding of the sum of
parts costs, labourSubtotal likewise for labour costs, tax is the
rounding of partsSubtotal times 0.15 (applied to parts only), total is
the rounding of partsSubtotal + labourSubtotal + tax — and in fact
equals that sum exactly — and an empty item list yields 0 everywhere,
never an error. -/
theorem C1_money_engine (inv : Invoice) :
    inv.parts_subtotal = round2 ((inv.items.map InvoiceItem.parts_cost).sum)
  ∧ inv.labour_subtotal = round2 ((inv.items.map InvoiceItem.labour_cost).sum)
  ∧ inv.gct = round2 (inv.parts_subtotal * (15 / 100))
  ∧ inv.total = round2 (inv.parts_subtotal + inv.labour_subtotal + inv.gct)
  ∧ inv.total = inv.parts_subtotal + inv.labour_subtotal + inv.gct
  ∧ (inv.items = [] →
      inv.parts_subtotal = 0 ∧ inv.labour_subtotal = 0 ∧ inv.gct = 0 ∧ inv.total = 0) := by
  refine ⟨rfl, rfl, rfl, rfl, total_eq_sum inv, ?_⟩
  intro h
  have hp : inv.parts_subtotal = 0 := by
    unfold Invoice.parts_subtotal
    rw [h]
    simpa using round2_zero
  have hl : inv.labour_subtotal = 0 := by
    unfold Invoice.labour_subtotal
    rw [h]
    simpa using round2_zero
  have hg : inv.gct = 0 := by
    unfold Invoice.gct
    rw [hp]
    simpa using round2_zero
  refine ⟨hp, hl, hg, ?_⟩
  unfold Invoice.total
  rw [hp, hl, hg]
  simpa using round2_zero

/-- A concrete empty invoice used as the C1 witness input. -/
def invEmpty : Invoice :=
  { pk := 1
    invoice_type := InvoiceType.general
    items := []
    proforma_price := none
    proforma_currency := "JMD"
    pdf_file := none
    drive_file_id := ""
    drive_web_view_link := ""
    drive_download_link := ""
    drive_synced_at := none }

/-- Witness for C1 at a concrete empty invoice. -/
theorem C1_money_engine_witness :
    invEmpty.parts_subtotal = 0 ∧ invEmpty.labour_subtotal = 0
  ∧ invEmpty.gct = 0 ∧ invEmpty.total = 0 :=
  (C1_money_engine invEmpty).2.2.2.2.2 rfl

/-- An observable effect on document storage: deleting a stored blob or
saving a new one.  Invoice.pdf_file.delete and FieldFile.save are the
only storage writes the embedded code performs. -/
inductive StorageEvent where
  | deleteFile (f : StoredFile)
  | saveFile (f : StoredFile)
deriving DecidableEq

/-- Invoice._store_pdf: if overwrite and a local file exists, delete it
(the reference becomes empty); then, if there is no local file or
overwrite is set, save the new content under the given filename.
Returns the updated invoice together with the storage events performed,
in order. -/
def Invoice.store_pdf (inv : Invoice) (filename : String) (content : List Nat)
    (overwrite : Bool) : Invoice × List StorageEvent :=
  let step1 : Invoice × List StorageEvent :=
    if overwrite then
      match inv.pdf_file with
      | some f => ({ inv with pdf_file := none }, [StorageEvent.deleteFile f])
      | none => (inv, [])
    else (inv, [])
  if step1.1.pdf_file.isNone || overwrite then
    ({ step1.1 with pdf_file := some ⟨filename, content⟩ },
      step1.2 ++ [StorageEvent.saveFile ⟨filename, content⟩])
  else (inv, step1.2)

/-- Invoice.mark_drive_file: on a successful Drive sync, if clear_local
is set and a local file exists, delete it and drop the reference; then
record the remote descriptor (empty strings for missing links) and the
sync timestamp. -/
def Invoice.mark_drive_file (inv : Invoice) (file_id : String)
    (web_view_link download_link : Option String) (now : Int)
    (clear_local : Bool) : Invoice × List StorageEvent :=
  let step1 : Invoice × List StorageEvent :=
    if clear_local then
      match inv.pdf_file with
      | some f => ({ inv with pdf_file := none }, [StorageEvent.deleteFile f])
      | none => (inv, [])
    else (inv, [])
  ({ step1.1 with
      drive_file_id := file_id
      drive_web_view_link := web_view_link.getD ""
      drive_download_link := download_link.getD ""
      drive_synced_at := some now }, step1.2)

/-- Invoice.clear_drive_file: wipe the four Drive descriptor fields; the
local pdf_file reference and the remote copy itself are not touched. -/
def Invoice.clear_drive_file (inv : Invoice) : Invoice :=
  { inv with
      drive_file_id := ""
      drive_web_view_link := ""
      drive_download_link := ""
      drive_synced_at := none }

/-- Invoice.pdf_filename: deterministic name from the primary key and
the invoice type. -/
def Invoice.pdf_filename (inv : Invoice) : String :=
  let suffix := match inv.invoice_type with
    | InvoiceType.general => "general"
    | InvoiceType.proforma => "proforma"
  "invoice-" ++ toString inv.pk ++ "-" ++ suffix ++ ".pdf"

/-- Invoice.generate_general_pdf: render (the rendered bytes are passed
in, abstracting the external Playwright renderer), optionally store the
result locally, and return the bytes.  The result pairs the updated
invoice and its storage events with the returned bytes. -/
def Invoice.generate_general_pdf (inv : Invoice) (rendered : List Nat)
    (overwrite store_local : Bool) : (Invoice × List StorageEvent) × List Nat :=
  let filename := "invoice-" ++ toString inv.pk ++ "-general.pdf"
  if store_local then (inv.store_pdf filename rendered overwrite, rendered)
  else ((inv, []), rendered)

/-- Invoice.generate_proforma_pdf: as generate_general_pdf but with the
proforma template and filename suffix. -/
def Invoice.generate_proforma_pdf (inv : Invoice) (rendered : List Nat)
    (overwrite store_local : Bool) : (Invoice × List StorageEvent) × List Nat :=
  let filename := "invoice-" ++ toString inv.pk ++ "-proforma.pdf"
  if store_local then (inv.store_pdf filename rendered overwrite, rendered)
  else ((inv, []), rendered)

/-- Invoice.generate_pdf_bytes: dispatch on the invoice type and return
the deterministic filename together with the rendered bytes. -/
def Invoice.generate_pdf_bytes (inv : Invoice) (rendered : List Nat)
    (overwrite store_local : Bool) :
    (Invoice × List StorageEvent) × (String × List Nat) :=
  match inv.invoice_type with
  | InvoiceType.general =>
      let r := inv.generate_general_pdf rendered overwrite store_local
      (r.1, (inv.pdf_filename, r.2))
  | InvoiceType.proforma =>
      let r := inv.generate_proforma_pdf rendered overwrite store_local
      (r.1, (inv.pdf_filename, r.2))

/-- A concrete invoice with no stored document, used in the document
lifecycle claims. -/
def invDoc : Invoice :=
  { invEmpty with pk := 7 }

/-- The state after a successful Drive sync of invDoc. -/
def invC2sync : Invoice :=
  (invDoc.mark_drive_file "remote-1" (some "view") (some "dl") 5 true).1

/-- The state after storing a local PDF on the already-synced invoice:
both the local file and the remote descriptor are populated. -/
def invC2both : Invoice :=
  (invC2sync.store_pdf "invoice-7-general.pdf" [1, 2, 3] true).1

/-- C2 counterexample: the mutual-exclusivity invariant does not hold
over every operation sequence.  Syncing to Drive and then storing a
local PDF (store_pdf does not clear the Drive descriptor) leaves both
the local blob reference and the remote descriptor populated. -/
theorem C2_counterexample :
    invC2both.pdf_file = some ⟨"invoice-7-general.pdf", [1, 2, 3]⟩
  ∧ invC2both.drive_file_id = "remote-1" := by
  constructor <;> rfl

/-- C2 (amended): after a successful sync with clear_local (the default
in the source), the local blob reference is absent and the remote
descriptor recorded; after clear_drive_file the remote descriptor
fields are empty and the local blob reference is exactly what it was
(never resurrected).  Mutual exclusivity over arbitrary sequences is
not part of the amended claim, since store_pdf leaves an existing
remote descriptor in place (see the counterexample). -/
theorem C2_document_union (inv : Invoice) (fid : String)
    (wv dl : Option String) (t : Int) :
    ((inv.mark_drive_file fid wv dl t true).1.pdf_file = none
      ∧ (inv.mark_drive_file fid wv dl t true).1.drive_file_id = fid
      ∧ (inv.mark_drive_file fid wv dl t true).1.drive_synced_at = some t)
  ∧ (inv.clear_drive_file.drive_file_id = ""
      ∧ inv.clear_drive_file.drive_web_view_link = ""
      ∧ inv.clear_drive_file.drive_download_link = ""
      ∧ inv.clear_drive_file.drive_synced_at = none
      ∧ inv.clear_drive_file.pdf_file = inv.pdf_file) := by
  refine ⟨⟨?_, ?_, ?_⟩, ?_, ?_, ?_, ?_, ?_⟩ <;>
    cases h : inv.pdf_file <;>
      simp [Invoice.mark_drive_file, Invoice.clear_drive_file, h]

/-- C6: with a local copy already stored, store_pdf with overwrite =
false changes nothing (no state change, no storage events, hence
idempotent), and with overwrite = true it deletes the old blob before
saving the new one. -/
theorem C6_store_local (inv : Invoice) (old : StoredFile) (filename : String)
    (content : List Nat) (h : inv.pdf_file = some old) :
    inv.store_pdf filename content false = (inv, [])
  ∧ (inv.store_pdf filename content true).2
      = [StorageEvent.deleteFile old, StorageEvent.saveFile ⟨filename, content⟩]
  ∧ (inv.store_pdf filename content true).1.pdf_file = some ⟨filename, content⟩ := by
  refine ⟨?_, ?_, ?_⟩ <;> simp [Invoice.store_pdf, h]

/-- A concrete invoice that already holds a local PDF. -/
def invC6 : Invoice :=
  { invEmpty with pdf_file := some ⟨"old.pdf", [9]⟩ }

/-- Witness for C6 at a concrete stored invoice. -/
theorem C6_store_local_witness :
    invC6.store_pdf "new.pdf" [1, 2] false = (invC6, [])
  ∧ (invC6.store_pdf "new.pdf" [1, 2] true).1.pdf_file = some ⟨"new.pdf", [1, 2]⟩ := by
  have h := C6_store_local invC6 ⟨"old.pdf", [9]⟩ "new.pdf" [1, 2] rfl
  exact ⟨h.1, h.2.2⟩

/-- String concatenation is associative (used to normalise filename
concatenations). -/
theorem string_append_assoc (a b c : String) : a ++ b ++ c = a ++ (b ++ c) := by
  cases a with
  | mk as =>
    cases b with
    | mk bs =>
      cases c with
      | mk cs =>
        show String.mk ((as ++ bs) ++ cs) = String.mk (as ++ (bs ++ cs))
        rw [List.append_assoc]

/-- C10: generate_pdf_bytes with its default arguments (overwrite =
false, store_local = false) returns the deterministic filename
invoice-pk-general.pdf or invoice-pk-proforma.pdf together with the
rendered bytes, leaves the invoice (local blob reference and all Drive
descriptor fields) unchanged, and performs no storage writes. -/
theorem C10_generate_pdf_bytes (inv : Invoice) (rendered : List Nat) :
    inv.generate_pdf_bytes rendered false false
      = ((inv, []), (inv.pdf_filename, rendered))
  ∧ (inv.invoice_type = InvoiceType.general →
      inv.pdf_filename = "invoice-" ++ toString inv.pk ++ "-general.pdf")
  ∧ (inv.invoice_type = InvoiceType.proforma →
      inv.pdf_filename = "invoice-" ++ toString inv.pk ++ "-proforma.pdf") := by
  refine ⟨?_, ?_, ?_⟩
  · cases htype : inv.invoice_type <;>
      simp [Invoice.generate_pdf_bytes, Invoice.generate_general_pdf,
        Invoice.generate_proforma_pdf, htype]
  · intro h
    simp only [Invoice.pdf_filename, h, string_append_assoc]
    rfl
  · intro h
    simp only [Invoice.pdf_filename, h, string_append_assoc]
    rfl

/-- Witness for C10 at a concrete general invoice. -/
theorem C10_generate_pdf_bytes_witness :
    invDoc.generate_pdf_bytes [4, 5] false false
      = ((invDoc, []), ("invoice-7-general.pdf", [4, 5])) := by
  have h := C10_generate_pdf_bytes invDoc [4, 5]
  rw [h.1, h.2.1 rfl]
  rfl

/-- Day number of a Gregorian calendar date (days since 1970-01-01,
the arithmetic Python date objects use: adding a timedelta adds to this
ordinal).  Standard civil-calendar conversion. -/
def days_from_civil (y m d : Int) : Int :=
  let yadj := if m ≤ 2 then y - 1 else y
  let era := Int.fdiv yadj 400
  let yoe := yadj - era * 400
  let mp := Int.fmod (m + 9) 12
  let doy := Int.fdiv (153 * mp + 2) 5 + d - 1
  let doe := yoe * 365 + Int.fdiv yoe 4 - Int.fdiv yoe 100 + doy
  era * 146097 + doe - 719468

/-- Inverse of days_from_civil: the (year, month, day) of a day
number. -/
def civil_from_days (z : Int) : Int × Int × Int :=
  let z2 := z + 719468
  let era := Int.fdiv z2 146097
  let doe := z2 - era * 146097
  let yoe := Int.fdiv (doe - Int.fdiv doe 1460 + Int.fdiv doe 36524 - Int.fdiv doe 146096) 365
  let y := yoe + era * 400
  let doy := doe - (365 * yoe + Int.fdiv yoe 4 - Int.fdiv yoe 100)
  let mp := Int.fdiv (5 * doy + 2) 153
  let d := doy - Int.fdiv (153 * mp + 2) 5 + 1
  let m := mp + (if mp < 10 then 3 else -9)
  (if m ≤ 2 then y + 1 else y, m, d)

/-- The WhatsAppSettings singleton: the global follow-up interval and
the business display name. -/
structure WhatsAppSettings where
  global_follow_up_days : Nat
  business_name : String
deriving DecidableEq

/-- The WhatsAppFollowUp record (one per client).  The client row it
points at is inlined as its name/email/phone; dates and timestamps are
integer ordinals. -/
structure WhatsAppFollowUp where
  client_name : String
  client_email : String
  client_phone : String
  is_active : Bool
  last_service_date : Option Int
  follow_up_days_override : Option Nat
  next_follow_up_date : Option Int
  last_sent_at : Option Int
  last_error : String
deriving DecidableEq

/-- WhatsAppFollowUp.follow_up_days: the override when it is truthy
(set and nonzero), else the global default. -/
def WhatsAppFollowUp.follow_up_days (f : WhatsAppFollowUp)
    (s : WhatsAppSettings) : Nat :=
  match f.follow_up_days_override with
  | some n => if n = 0 then s.global_follow_up_days else n
  | none => s.global_follow_up_days

/-- WhatsAppFollowUp.compute_next_follow_up_date: none when the last
service date is unset, else last service date plus the effective
interval in days. -/
def WhatsAppFollowUp.compute_next_follow_up_date (f : WhatsAppFollowUp)
    (s : WhatsAppSettings) : Option Int :=
  match f.last_service_date with
  | none => none
  | some d => some (d + (f.follow_up_days s : Int))

/-- The effective interval as the specification words it: the override
when it is set and at least 1, else the global default.  Stated from
the spec, to be compared with follow_up_days from the source. -/
def effectiveIntervalSpec (f : WhatsAppFollowUp) (s : WhatsAppSettings) : Nat :=
  match f.follow_up_days_override with
  | some n => if 1 ≤ n then n else s.global_follow_up_days
  | none => s.global_follow_up_days

/-- The source interval resolution agrees with the spec wording. -/
theorem follow_up_days_eq_spec (f : WhatsAppFollowUp) (s : WhatsAppSettings) :
    f.follow_up_days s = effectiveIntervalSpec f s := by
  unfold WhatsAppFollowUp.follow_up_days effectiveIntervalSpec
  cases f.follow_up_days_override with
  | none => rfl
  | some n =>
    by_cases h : n = 0
    · subst h
      simp
    · simp [h, Nat.one_le_iff_ne_zero]

/-- C3: compute_next_follow_up_date returns none exactly when the last
service date is unset, and otherwise returns the last service date plus
the effective interval (override when set and at least 1, else the
global default). -/
theorem C3_compute_next_date (f : WhatsAppFollowUp) (s : WhatsAppSettings) :
    (f.compute_next_follow_up_date s = none ↔ f.last_service_date = none)
  ∧ ∀ d : Int, f.last_service_date = some d →
      f.compute_next_follow_up_date s = some (d + (effectiveIntervalSpec f s : Int)) := by
  constructor
  · unfold WhatsAppFollowUp.compute_next_follow_up_date
    cases h : f.last_service_date <;> simp [h]
  · intro d hd
    unfold WhatsAppFollowUp.compute_next_follow_up_date
    rw [hd, follow_up_days_eq_spec]

/-- A concrete follow-up profile: service on day 100, no override. -/
def fuEx : WhatsAppFollowUp :=
  { client_name := "A. Client"
    client_email := "a@example.com"
    client_phone := "+1876"
    is_active := true
    last_service_date := some 100
    follow_up_days_override := none
    next_follow_up_date := none
    last_sent_at := none
    last_error := "" }

/-- Concrete settings: 90-day default interval. -/
def wsEx : WhatsAppSettings :=
  { global_follow_up_days := 90
    business_name := "Stepmath" }

/-- Witness for C3: service day 100 with the 90-day default schedules
day 190. -/
theorem C3_compute_next_date_witness :
    fuEx.compute_next_follow_up_date wsEx = some 190 := by
  have h := (C3_compute_next_date fuEx wsEx).2 100 rfl
  simpa using h

/-- WhatsAppFollowUp.register_success: record the send time, clear the
error, and schedule the next follow-up relative to today (the local
date at the time of the send), not the last service date. -/
def WhatsAppFollowUp.register_success (f : WhatsAppFollowUp)
    (s : WhatsAppSettings) (now today : Int) : WhatsAppFollowUp :=
  { f with
      last_sent_at := some now
      last_error := ""
      next_follow_up_date := some (today + (f.follow_up_days s : Int)) }

/-- WhatsAppFollowUp.register_failure: record the error text only. -/
def WhatsAppFollowUp.register_failure (f : WhatsAppFollowUp)
    (error : String) : WhatsAppFollowUp :=
  { f with last_error := error }

/-- C4: register_success sets last_sent_at to the current time, clears
last_error, and sets next_follow_up_date to today plus the effective
interval — a quantity independent of last_service_date; in particular
with effective interval 30 and current date 2024-06-01 the next date is
2024-07-01 whatever the last service date was. -/
theorem C4_register_success (f : WhatsAppFollowUp) (s : WhatsAppSettings)
    (now today : Int) :
    (f.register_success s now today).last_sent_at = some now
  ∧ (f.register_success s now today).last_error = ""
  ∧ (f.register_success s now today).next_follow_up_date
      = some (today + (f.follow_up_days s : Int))
  ∧ (∀ d : Option Int,
      ({ f with last_service_date := d }.register_success s now today).next_follow_up_date
        = (f.register_success s now today).next_follow_up_date)
  ∧ (f.follow_up_days s = 30 → today = days_from_civil 2024 6 1 →
      (f.register_success s now today).next_follow_up_date
        = some (days_from_civil 2024 7 1)) := by
  refine ⟨rfl, rfl, rfl, fun d => rfl, ?_⟩
  intro h30 htoday
  show some (today + (f.follow_up_days s : Int)) = some (days_from_civil 2024 7 1)
  rw [h30, htoday]
  decide

/-- A follow-up profile with a 30-day override and an old service
date. -/
def fuEx30 : WhatsAppFollowUp :=
  { fuEx with
      follow_up_days_override := some 30
      last_service_date := some 0 }

/-- Witness for C4: sending on 2024-06-01 with a 30-day effective
interval schedules 2024-07-01 even though the last service date is the
epoch. -/
theorem C4_register_success_witness :
    (fuEx30.register_success wsEx 77 (days_from_civil 2024 6 1)).next_follow_up_date
      = some (days_from_civil 2024 7 1) :=
  (C4_register_success fuEx30 wsEx 77 (days_from_civil 2024 6 1)).2.2.2.2 rfl rfl

/-- C5: register_failure updates only last_error; every other field of
the profile is unchanged. -/
theorem C5_register_failure (f : WhatsAppFollowUp) (e : String) :
    (f.register_failure e).last_error = e
  ∧ (f.register_failure e).next_follow_up_date = f.next_follow_up_date
  ∧ (f.register_failure e).last_sent_at = f.last_sent_at
  ∧ (f.register_failure e).last_service_date = f.last_service_date
  ∧ (f.register_failure e).follow_up_days_override = f.follow_up_days_override
  ∧ (f.register_failure e).is_active = f.is_active
  ∧ (f.register_failure e).client_name = f.client_name
  ∧ (f.register_failure e).client_email = f.client_email
  ∧ (f.register_failure e).client_phone = f.client_phone :=
  ⟨rfl, rfl, rfl, rfl, rfl, rfl, rfl, rfl, rfl⟩

/-- Insert thousands separators into a digit list given least
significant digit first (the grouping of a Python format with the comma
option). -/
def groupThree : List Char → List Char
  | a :: b :: c :: d :: rest => a :: b :: c :: ',' :: groupThree (d :: rest)
  | l => l

/-- Decimal digits of a natural number with commas every three digits:
1234567 becomes 1,234,567. -/
def natGrouped (n : Nat) : String :=
  String.mk (groupThree (toString n).data.reverse).reverse

/-- Two-digit zero-padded rendering of a value below 100. -/
def pad2 (n : Nat) : String :=
  if n < 10 then "0" ++ toString n else toString n

/-- Render an integer number of cents the way a Python format with the
comma option and two decimal places renders the corresponding two
decimal place value. -/
def formatCents (cents : Int) : String :=
  let sign := if cents < 0 then "-" else ""
  let n := cents.natAbs
  sign ++ natGrouped (n / 100) ++ "." ++ pad2 (n % 100)

/-- Drop leading whitespace characters from a character list. -/
def dropWhileWs : List Char → List Char
  | [] => []
  | c :: rest => if c.isWhitespace then dropWhileWs rest else c :: rest

/-- Python str.strip: remove leading and trailing whitespace. -/
def stripStr (s : String) : String :=
  String.mk ((dropWhileWs ((dropWhileWs s.data).reverse)).reverse)

/-- Invoice._money: the empty string for a missing amount; otherwise
the amount quantized half-up to 2 decimals, prefixed by the stripped
currency when nonempty and by the dollar sign otherwise. -/
def Invoice.money (v : Option ℚ) (currency : String) : String :=
  match v with
  | none => ""
  | some q =>
    let amount := round2 q
    let c := stripStr currency
    if c = "" then "$" ++ formatCents (Int.floor (amount * 100))
    else c ++ " " ++ formatCents (Int.floor (amount * 100))

/-- Invoice.proforma_total_formatted: the proforma price formatted with
the proforma currency. -/
def Invoice.proforma_total_formatted (inv : Invoice) : String :=
  Invoice.money inv.proforma_price inv.proforma_currency

/-- A proforma invoice with no price set. -/
def invC7none : Invoice :=
  { invEmpty with
      pk := 3
      invoice_type := InvoiceType.proforma
      proforma_price := none
      proforma_currency := "JMD" }

/-- C7 counterexample: with the price unset the formatted proforma
total is the empty string, not an explicit placeholder string. -/
theorem C7_counterexample : invC7none.proforma_total_formatted = "" := rfl

/-- C7 (amended): an unset price formats to the empty string; a set
price formats as the stripped currency, a space, and the amount with
thousands separators and 2 half-up decimals, with a dollar-sign prefix
instead when the stripped currency is empty. -/
theorem C7_money_format (inv : Invoice) :
    (inv.proforma_price = none → inv.proforma_total_formatted = "")
  ∧ (∀ q : ℚ, inv.proforma_price = some q →
      inv.proforma_total_formatted =
        (if stripStr inv.proforma_currency = ""
          then "$" ++ formatCents (Int.floor (round2 q * 100))
          else stripStr inv.proforma_currency ++ " "
            ++ formatCents (Int.floor (round2 q * 100)))) := by
  constructor
  · intro h
    unfold Invoice.proforma_total_formatted Invoice.money
    rw [h]
  · intro q hq
    unfold Invoice.proforma_total_formatted Invoice.money
    rw [hq]

/-- A proforma invoice priced at 1234567.891 JMD (a value whose
rounding and grouping are both visible). -/
def invC7priced : Invoice :=
  { invC7none with proforma_price := some (1234567891 / 1000) }

/-- The same invoice with a whitespace-only currency. -/
def invC7blank : Invoice :=
  { invC7priced with proforma_currency := "  " }

/-- Rounding 1234567.891 half-up to 2 decimals yields 1234567.89. -/
theorem round2_c7val : round2 ((1234567891 : ℚ) / 1000) = (123456789 : ℚ) / 100 := by
  unfold round2
  rw [if_neg (by norm_num)]
  have h : Int.floor ((1234567891 : ℚ) / 1000 * 100 + 1 / 2) = 123456789 := by
    rw [Int.floor_eq_iff]
    constructor <;> norm_num
  rw [h]
  norm_num

/-- The cent count of the rounded C7 example value. -/
theorem cents_c7val :
    Int.floor (round2 ((1234567891 : ℚ) / 1000) * 100) = 123456789 := by
  rw [round2_c7val]
  have h : (123456789 : ℚ) / 100 * 100 = ((123456789 : ℤ) : ℚ) := by norm_num
  rw [h, Int.floor_intCast]

/-- Witness for C7: the priced proforma invoice formats with the
currency prefix, thousands separators and half-up cents, and the
whitespace-currency variant falls back to the dollar-sign prefix. -/
theorem C7_money_format_witness :
    invC7priced.proforma_total_formatted = "JMD 1,234,567.89"
  ∧ invC7blank.proforma_total_formatted = "$1,234,567.89" := by
  constructor
  · have h := (C7_money_format invC7priced).2 (1234567891 / 1000) rfl
    rw [h, cents_c7val]
    decide
  · have h := (C7_money_format invC7blank).2 (1234567891 / 1000) rfl
    rw [h, cents_c7val]
    decide

/-- English month name for month numbers 1..12, as Python strftime with
the percent-B directive produces. -/
def monthName : Int → String
  | 1 => "January"
  | 2 => "February"
  | 3 => "March"
  | 4 => "April"
  | 5 => "May"
  | 6 => "June"
  | 7 => "July"
  | 8 => "August"
  | 9 => "September"
  | 10 => "October"
  | 11 => "November"
  | 12 => "December"
  | _ => ""

/-- Python strftime of a date with the month-name, zero-padded-day,
comma, year pattern, for example June 01, 2024. -/
def formatDateBdY (z : Int) : String :=
  let c := civil_from_days z
  monthName c.2.1 ++ " " ++ pad2 c.2.2.toNat ++ ", " ++ toString c.1

/-- The context dictionary WhatsAppFollowUp.message_context builds for
template substitution. -/
structure MessageContext where
  client_name : String
  client_email : String
  client_phone : String
  business_name : String
  last_service_date : String
  days_since_service : String
  next_follow_up_date : String
  follow_up_days : String
deriving DecidableEq

/-- WhatsAppFollowUp.message_context: unavailable date values become
the empty string, but an empty business name becomes the fallback text
"our team".  today is the local date at render time. -/
def WhatsAppFollowUp.message_context (f : WhatsAppFollowUp)
    (s : WhatsAppSettings) (today : Int) : MessageContext :=
  { client_name := f.client_name
    client_email := f.client_email
    client_phone := f.client_phone
    business_name := if s.business_name = "" then "our team" else s.business_name
    last_service_date :=
      match f.last_service_date with
      | some d => formatDateBdY d
      | none => ""
    days_since_service :=
      match f.last_service_date with
      | some d => toString (today - d)
      | none => ""
    next_follow_up_date :=
      match f.next_follow_up_date with
      | some d => formatDateBdY d
      | none => ""
    follow_up_days := toString (f.follow_up_days s) }

/-- WhatsAppFollowUp.build_message: the fixed default template with the
context values substituted for its four placeholders (every placeholder
the template names is a key of the context, so the defaultdict fallback
of the source never fires for this template; substitution is total and
never raises). -/
def WhatsAppFollowUp.build_message (f : WhatsAppFollowUp)
    (s : WhatsAppSettings) (today : Int) : String :=
  let ctx := f.message_context s today
  "Hi " ++ ctx.client_name ++ ", just checking in from " ++ ctx.business_name
    ++ "! It's been " ++ ctx.days_since_service
    ++ " days since we last serviced you on " ++ ctx.last_service_date
    ++ ". Let us know if you need anything."

/-- A follow-up profile with no service date and no schedule. -/
def fuBare : WhatsAppFollowUp :=
  { fuEx with
      last_service_date := none
      next_follow_up_date := none }

/-- Settings with a missing (empty) business name. -/
def wsNoName : WhatsAppSettings :=
  { global_follow_up_days := 90
    business_name := "" }

/-- C8 counterexample: a missing business name is not substituted with
the empty string — the source substitutes the fallback text
"our team". -/
theorem C8_counterexample :
    (fuBare.message_context wsNoName 0).business_name = "our team" := rfl

/-- C8 (amended): message rendering is total — build_message returns
the substituted template for all inputs — and every date placeholder
whose value is unavailable (unset last service date, unset next follow
up date) is substituted with the empty string; a missing business name,
however, is substituted with the fallback "our team" rather than the
empty string. -/
theorem C8_message_render (f : WhatsAppFollowUp) (s : WhatsAppSettings)
    (today : Int) :
    (f.last_service_date = none →
        (f.message_context s today).last_service_date = ""
      ∧ (f.message_context s today).days_since_service = "")
  ∧ (f.next_follow_up_date = none →
      (f.message_context s today).next_follow_up_date = "")
  ∧ (s.business_name = "" →
      (f.message_context s today).business_name = "our team")
  ∧ f.build_message s today =
      "Hi " ++ (f.message_context s today).client_name
        ++ ", just checking in from "
        ++ (f.message_context s today).business_name
        ++ "! It's been " ++ (f.message_context s today).days_since_service
        ++ " days since we last serviced you on "
        ++ (f.message_context s today).last_service_date
        ++ ". Let us know if you need anything." := by
  refine ⟨?_, ?_, ?_, rfl⟩
  · intro h
    constructor <;> simp [WhatsAppFollowUp.message_context, h]
  · intro h
    simp [WhatsAppFollowUp.message_context, h]
  · intro h
    simp [WhatsAppFollowUp.message_context, h]

/-- Witness for C8: with no service date, no next date and no business
name, the message renders with empty date placeholders and the team
fallback, and equals the fully substituted template. -/
theorem C8_message_render_witness :
    ((fuBare.message_context wsNoName 0).last_service_date = ""
      ∧ (fuBare.message_context wsNoName 0).days_since_service = "")
  ∧ (fuBare.message_context wsNoName 0).next_follow_up_date = ""
  ∧ fuBare.build_message wsNoName 0 =
      "Hi A. Client, just checking in from our team! It's been "
        ++ " days since we last serviced you on "
        ++ ". Let us know if you need anything." := by
  have h := C8_message_render fuBare wsNoName 0
  refine ⟨h.1 rfl, h.2.1 rfl, ?_⟩
  rw [h.2.2.2]
  decide

/-- Accumulator state of the regenerate_pdfs command loop: counters,
storage events performed, console output lines, and the invoice states
after processing. -/
structure RunAcc where
  processed : Nat
  regenerated : Nat
  events : List StorageEvent
  output : List String
  finals : List Invoice
deriving DecidableEq

/-- The dry-run line the command prints for one invoice. -/
def dryRunLine (inv : Invoice) : String :=
  "[DRY RUN] Would regenerate PDF for invoice " ++ toString inv.pk
    ++ " (" ++ invoiceTypeStr inv.invoice_type ++ ")"

/-- One iteration of the command loop: count the invoice as processed;
in dry-run mode only report; otherwise render (the external renderer is
a fallible function argument) and store with overwrite, counting a
regeneration on success and reporting the failure otherwise. -/
def processOne (dry_run : Bool) (render : Invoice → Except String (List Nat))
    (acc : RunAcc) (inv : Invoice) : RunAcc :=
  let acc1 := { acc with processed := acc.processed + 1 }
  if dry_run then
    { acc1 with
        output := acc1.output ++ [dryRunLine inv]
        regenerated := acc1.regenerated + 1
        finals := acc1.finals ++ [inv] }
  else
    match render inv with
    | Except.ok content =>
        let r :=
          match inv.invoice_type with
          | InvoiceType.general => inv.generate_general_pdf content true true
          | InvoiceType.proforma => inv.generate_proforma_pdf content true true
        { acc1 with
            regenerated := acc1.regenerated + 1
            events := acc1.events ++ r.1.2
            output := acc1.output ++
              ["✓ Regenerated PDF for invoice " ++ toString inv.pk
                ++ " (" ++ invoiceTypeStr inv.invoice_type ++ ")"]
            finals := acc1.finals ++ [r.1.1] }
    | Except.error e =>
        { acc1 with
            output := acc1.output ++
              ["✗ Failed to regenerate PDF for invoice " ++ toString inv.pk
                ++ ": " ++ e]
            finals := acc1.finals ++ [inv] }

/-- The full report of one command run. -/
structure CommandReport where
  output : List String
  events : List StorageEvent
  invoices : List Invoice
  processed : Nat
  regenerated : Nat
deriving DecidableEq

/-- Command.handle of regenerate_pdfs: print the header, loop over all
invoices, then print the processed/regenerated summary and, in dry-run
mode, the closing dry-run note. -/
def handle (dry_run : Bool) (render : Invoice → Except String (List Nat))
    (invoices : List Invoice) : CommandReport :=
  let header := "Found " ++ toString invoices.length ++ " invoices to process"
  let acc := invoices.foldl (processOne dry_run render) ⟨0, 0, [], [], []⟩
  let summary := "\nProcessed " ++ toString acc.processed
    ++ " invoices, regenerated " ++ toString acc.regenerated ++ " PDFs"
  let closing := if dry_run then ["This was a dry run - no actual changes made"] else []
  { output := [header] ++ acc.output ++ [summary] ++ closing
    events := acc.events
    invoices := acc.finals
    processed := acc.processed
    regenerated := acc.regenerated }

/-- In dry-run mode the loop only counts and reports: starting from any
accumulator it adds the invoice count to both counters, appends one
dry-run line per invoice, performs no storage events, and leaves every
invoice unchanged. -/
theorem foldl_processOne_dry (render : Invoice → Except String (List Nat))
    (invs : List Invoice) (acc : RunAcc) :
    invs.foldl (processOne true render) acc =
      { processed := acc.processed + invs.length
        regenerated := acc.regenerated + invs.length
        events := acc.events
        output := acc.output ++ invs.map dryRunLine
        finals := acc.finals ++ invs } := by
  induction invs generalizing acc with
  | nil => simp
  | cons a t ih =>
    rw [List.foldl_cons, ih]
    simp only [processOne, if_pos]
    simp [RunAcc.mk.injEq, List.append_assoc]
    constructor <;> omega

/-- C9: the batch regenerate command in dry-run mode: for any N input
invoices it reports the header, exactly N would-regenerate lines (one
per invoice, in order), a summary distinguishing the processed count
from the regenerated count, and the dry-run note; it performs zero
writes to document storage and leaves every invoice unchanged. -/
theorem C9_dry_run (render : Invoice → Except String (List Nat))
    (invs : List Invoice) :
    (handle true render invs).processed = invs.length
  ∧ (handle true render invs).regenerated = invs.length
  ∧ (handle true render invs).events = []
  ∧ (handle true render invs).invoices = invs
  ∧ (handle true render invs).output =
      ["Found " ++ toString invs.length ++ " invoices to process"]
        ++ invs.map dryRunLine
        ++ ["\nProcessed " ++ toString invs.length
              ++ " invoices, regenerated " ++ toString invs.length ++ " PDFs",
            "This was a dry run - no actual changes made"] := by
  unfold handle
  rw [foldl_processOne_dry]
  simp

end Invoicegen
